import Mathlib

/-!
Verification of the LUMINA-AI job orchestration core (backend/app/services)
against its natural-language specification.

The Python sources are shallowly embedded:
  * `JobStatus`, `Job`          — job_manager.py (dataclass `Job`, enum `JobStatus`)
  * `Store`, `store_put/get`    — the `JobManager._jobs` dict under its lock
  * `create_job`, `cancel_job`  — `JobManager.create_job`, `JobManager.cancel_job`
  * `run_job`                   — `JobManager._run_job` (the worker body)
  * `process_media`, `process_image`, `process_video` — pipeline.py
  * `upscale_image`, `upscale_with_pillow` — image_upscaler.py
  * `apply_enhancements` and the three enhancement functions — enhancers.py

Python floats are modelled as `ℚ`, `None` as `Option.none`, dict/JSON option
payloads as the `ProcessOptions` record (pipeline.py `ProcessOptions.from_dict`
reads exactly these keys, so `Job.options` is stored here already parsed).
Timestamps (`created_at`/`updated_at`) are irrelevant to every claim and are
omitted.  External collaborators (Pillow, the Real-ESRGAN / GFPGAN CLIs,
ffmpeg) are modelled by environment records stating which of them is present
and whether its invocation succeeds.

Concurrent flips of `job.cancel_requested` by `JobManager.cancel_job` while
the worker runs are modelled by an observation function `obs : Nat → Bool`:
each read of the flag by the worker or the pipeline consumes one instant, in
program order (instant 0 is the read in `_run_job`'s entry guard).
-/

namespace Lumina

/-- `JobStatus` from job_manager.py. -/
inductive JobStatus where
  | PENDING
  | RUNNING
  | COMPLETED
  | FAILED
  | CANCELLED
deriving DecidableEq

/-- `ProcessOptions` from pipeline.py; every field is optional exactly as in
the dataclass (`from_dict` pulls the same keys out of the raw dict). -/
structure ProcessOptions where
  scale : Option ℚ := none
  target_width : Option Nat := none
  target_height : Option Nat := none
  video_bitrate : Option String := none
  format : Option String := none
  mode : Option String := none
  strength : Option ℚ := none
  interpolate : Option Bool := none
  interp_factor : Option Int := none
  realesrgan_model : Option String := none
  rife_factor : Option Int := none
deriving DecidableEq

/-- The `Job` dataclass from job_manager.py, with its field defaults
(`status=PENDING`, `output_path=None`, `progress=0.0`, `error=None`,
`cancel_requested=False`).  `options` is kept already parsed (see header). -/
structure Job where
  id : String
  input_path : String
  media_type : String
  options : ProcessOptions
  status : JobStatus := JobStatus.PENDING
  output_path : Option String := none
  progress : ℚ := 0
  error : Option String := none
  cancel_requested : Bool := false
deriving DecidableEq

/-! ### Python truthiness helpers

Python guards like `if options.scale or options.target_width ...` test
truthiness: `None`, `0`, `0.0` and `""` are falsy. -/

/-- Truthiness of an optional Python float. -/
def truthyQ (o : Option ℚ) : Bool :=
  match o with
  | none => false
  | some q => decide (q ≠ 0)

/-- Truthiness of an optional Python int used as a dimension. -/
def truthyNat (o : Option Nat) : Bool :=
  match o with
  | none => false
  | some n => decide (n ≠ 0)

/-- Truthiness of an optional Python int. -/
def truthyInt (o : Option Int) : Bool :=
  match o with
  | none => false
  | some n => decide (n ≠ 0)

/-- Truthiness of an optional Python bool. -/
def truthyBool (o : Option Bool) : Bool :=
  match o with
  | none => false
  | some b => b

/-- Python `a or d` for an optional string `a`: `d` when `a` is `None` or `""`. -/
def pyOrStr (o : Option String) (d : String) : String :=
  match o with
  | none => d
  | some s => if s = "" then d else s

/-- Python `a or d` for an optional float `a`: `d` when `a` is `None` or `0.0`
(used for `ffm.get_video_fps(...) or 30.0`). -/
def pyOrQ (o : Option ℚ) (d : ℚ) : ℚ :=
  match o with
  | none => d
  | some q => if q = 0 then d else q

/-! ### String helpers mirroring the `os.path` / `str` calls the pipeline uses

These are written by structural recursion over the character list so that
concrete runs reduce inside the kernel.  `lower()` is modelled on ASCII only;
every string it is applied to in this development is ASCII. -/

/-- `os.path.basename`: the part after the last `/`. -/
def basenameChars (cs : List Char) : List Char :=
  (cs.reverse.takeWhile (fun c => c ≠ '/')).reverse

/-- The root part of `os.path.splitext` applied to a basename: everything
before the last `.`, unless the only `.` characters are leading (so
`.bashrc` has no extension, as in CPython). -/
def splitextRoot (cs : List Char) : List Char :=
  let revd := cs.reverse
  match revd.dropWhile (fun c => c ≠ '.') with
  | [] => cs
  | _ :: b => if b.any (fun c => c ≠ '.') then b.reverse else cs

/-- `os.path.splitext(os.path.basename(p))[0]` as used for output names. -/
def base_name (p : String) : String :=
  String.mk (splitextRoot (basenameChars p.data))

/-- ASCII `str.lower()`. -/
def asciiLower (s : String) : String :=
  String.mk (s.data.map fun c => if c.isUpper then Char.ofNat (c.toNat + 32) else c)

/-- `str.strip()`: drop leading and trailing whitespace. -/
def pyStrip (s : String) : String :=
  String.mk (((s.data.dropWhile Char.isWhitespace).reverse.dropWhile
    Char.isWhitespace).reverse)

/-- `mode.replace(" ", "_")` as used to build the output suffix. -/
def spacesToUnderscores (s : String) : String :=
  String.mk (s.data.map fun c => if c = ' ' then '_' else c)

/-! ### JobStore (the `JobManager._jobs` dict under `_jobs_lock`)

Modelled as an association list; `store_put` replaces the entry for an
existing key and appends otherwise, like a Python dict assignment. -/

/-- The job registry. -/
abbrev Store := List (String × Job)

/-- `self._jobs.get(job_id)`. -/
def store_get : Store → String → Option Job
  | [], _ => none
  | (k, v) :: rest, id => if k = id then some v else store_get rest id

/-- `self._jobs[job_id] = job`. -/
def store_put : Store → String → Job → Store
  | [], id, j => [(id, j)]
  | (k, v) :: rest, id, j =>
      if k = id then (k, j) :: rest else (k, v) :: store_put rest id j

/-- `JobManager.create_job`: builds a `Job` with the dataclass defaults and
stores it under `job_id`, with no validation of any argument. -/
def create_job (s : Store) (job_id input_path media_type : String)
    (options : ProcessOptions) : Store × Job :=
  let j : Job :=
    { id := job_id, input_path := input_path, media_type := media_type,
      options := options }
  (store_put s job_id j, j)

/-- The terminal-status set `{COMPLETED, FAILED, CANCELLED}` tested by
`JobManager.cancel_job`. -/
def terminalStatus (st : JobStatus) : Bool :=
  decide (st = JobStatus.COMPLETED) || decide (st = JobStatus.FAILED) ||
    decide (st = JobStatus.CANCELLED)

/-- `JobManager.cancel_job`: `False` when the id is unknown or the job is
terminal; otherwise sets `cancel_requested`, force-cancels a PENDING job, and
re-stores it, returning `True`. -/
def cancel_job (s : Store) (job_id : String) : Bool × Store :=
  match store_get s job_id with
  | none => (false, s)
  | some j =>
      if terminalStatus j.status then (false, s)
      else
        let j2 : Job :=
          { j with cancel_requested := true,
                   status :=
                     if j.status = JobStatus.PENDING then JobStatus.CANCELLED
                     else j.status }
        (true, store_put s job_id j2)

/-! ### Image upscaler (image_upscaler.py) -/

/-- Which external pieces the upscaler can reach:  whether
`shutil.which("realesrgan-ncnn-vulkan")` finds the CLI, whether its
`subprocess.run(..., check=True)` succeeds, and whether Pillow imported. -/
structure UpscaleEnv where
  realesrganCli : Bool
  realesrganOk : Bool
  pilAvailable : Bool
deriving DecidableEq

/-- What one `upscale_image` call did to the output file. -/
inductive UpscaleOutcome where
  /-- The Real-ESRGAN CLI ran with `-s int(scale)`; target dimensions unused. -/
  | cliScaled (s : ℚ)
  /-- Pillow wrote a resize of the input to this exact pixel size. -/
  | resized (w h : Nat)
  /-- Pillow missing: the input file was copied unchanged. -/
  | copied
deriving DecidableEq

/-- The guard `scale and float(scale).is_integer() and int(scale) in {2,3,4}`
choosing the Real-ESRGAN CLI path. -/
def cli_eligible (scale : Option ℚ) : Bool :=
  match scale with
  | none => false
  | some s =>
      decide (s ≠ 0) && decide (s.den = 1) &&
        (decide (s.num = 2) || decide (s.num = 3) || decide (s.num = 4))

/-- `_upscale_with_pillow` on an input image of size `w × h`: no Pillow means
`shutil.copy2`; both dimensions truthy means an exact resize to them;
otherwise a truthy positive scale resizes to `(int(w*scale), int(h*scale))`;
otherwise the size is unchanged. -/
def upscale_with_pillow (env : UpscaleEnv) (scale : Option ℚ)
    (tw th : Option Nat) (w h : Nat) : UpscaleOutcome :=
  if !env.pilAvailable then UpscaleOutcome.copied
  else if truthyNat tw && truthyNat th then UpscaleOutcome.resized (tw.getD 0) (th.getD 0)
  else if truthyQ scale && decide (0 < scale.getD 0) then
    UpscaleOutcome.resized (((w : ℚ) * scale.getD 0).floor.toNat)
      (((h : ℚ) * scale.getD 0).floor.toNat)
  else UpscaleOutcome.resized w h

/-- `upscale_image`: prefer the Real-ESRGAN CLI when `cli_eligible`; a missing
CLI (`_upscale_with_realesrgan_cli` returns `False`) or a CLI error (caught
by the bare `except`) falls back to `_upscale_with_pillow`. -/
def upscale_image (env : UpscaleEnv) (scale : Option ℚ)
    (tw th : Option Nat) (w h : Nat) : UpscaleOutcome :=
  if cli_eligible scale then
    if env.realesrganCli && env.realesrganOk then UpscaleOutcome.cliScaled (scale.getD 0)
    else upscale_with_pillow env scale tw th w h
  else upscale_with_pillow env scale tw th w h

/-! ### Enhancers (enhancers.py) -/

/-- External pieces the enhancers can reach: Pillow, and the GFPGAN CLI with
the success of its subprocess call. -/
structure EnhanceEnv where
  pilAvailable : Bool
  gfpganCli : Bool
  gfpganOk : Bool
deriving DecidableEq

/-- What one enhancement call did, carrying the strength value actually used
by the Pillow filters (after the `max(0.0, min(1.0, ...))` clamp). -/
inductive EnhanceOutcome where
  | general (strength : ℚ)
  | faceCli
  | faceFallback (strength : ℚ)
  | repair (strength : ℚ)
deriving DecidableEq

/-- The message of `_ensure_pil_available`'s `RuntimeError`. -/
def pillowMissingMsg : String :=
  "Pillow is required for enhancement operations but is not installed"

/-- The clamp `max(0.0, min(1.0, float(strength)))` every Pillow enhancement
path applies. -/
def clamp01 (q : ℚ) : ℚ := max 0 (min 1 q)

/-- `enhance_image_general`. -/
def enhance_image_general (env : EnhanceEnv) (strength : ℚ) :
    Except String EnhanceOutcome :=
  if !env.pilAvailable then Except.error pillowMissingMsg
  else Except.ok (EnhanceOutcome.general (clamp01 strength))

/-- `enhance_image_face`: GFPGAN CLI when present and succeeding (its
exceptions are swallowed), else the Pillow fallback. -/
def enhance_image_face (env : EnhanceEnv) (strength : ℚ) :
    Except String EnhanceOutcome :=
  if env.gfpganCli && env.gfpganOk then Except.ok EnhanceOutcome.faceCli
  else if !env.pilAvailable then Except.error pillowMissingMsg
  else Except.ok (EnhanceOutcome.faceFallback (clamp01 strength))

/-- `repair_image`. -/
def repair_image (env : EnhanceEnv) (strength : ℚ) :
    Except String EnhanceOutcome :=
  if !env.pilAvailable then Except.error pillowMissingMsg
  else Except.ok (EnhanceOutcome.repair (clamp01 strength))

/-- `apply_enhancements`: dispatch on `(mode or "").strip().lower()`. -/
def apply_enhancements (env : EnhanceEnv) (mode : String) (strength : ℚ) :
    Except String EnhanceOutcome :=
  let m := asciiLower (pyStrip mode)
  if m = "face" ∨ m = "face_enhance" ∨ m = "face-enhance" then
    enhance_image_face env strength
  else if m = "repair" ∨ m = "ai_repair" ∨ m = "ai-repair" then
    repair_image env strength
  else enhance_image_general env strength

/-! ### Pipeline (pipeline.py)

An important fact of the source, which several claims turn on: both pipeline
call sites invoke the upscaler as
`upscale_image(..., target_height=..., realesrgan_model=options.realesrgan_model)`,
but `upscale_image` (image_upscaler.py, line 64) declares no
`realesrgan_model` parameter.  In Python such a call raises `TypeError`
before the callee body runs, so the pipeline can never actually execute the
upscaler; the rest of the statement (and, in the per-frame loop, the rest of
the loop body) is unreachable.  `upscaleCallError` is `str()` of that
`TypeError` (CPython quotes the keyword name; the quotes are left out here). -/

/-- The `TypeError` every pipeline call of `upscale_image` raises, because the
call passes `realesrgan_model=` and the function does not accept it. -/
def upscaleCallError : String :=
  "TypeError: upscale_image() got an unexpected keyword argument realesrgan_model"

/-- The `RuntimeError` message of `_process_video`'s dependency check. -/
def ffmpegMissingMsg : String :=
  "ffmpeg is required for video processing but was not found in PATH"

/-- Stand-in for `str()` of the `CalledProcessError` that `extract_frames`
propagates when its `ffmpeg` run fails (`_run_command` uses `check=True`). -/
def extractFailMsg : String := "CalledProcessError: ffmpeg frame extraction failed"

/-- Stand-in for `str()` of the `CalledProcessError` that `assemble_video`
propagates when its `ffmpeg` run fails. -/
def assembleFailMsg : String := "CalledProcessError: ffmpeg video assembly failed"

/-- Observable actions of one pipeline run, in program order: each progress
report through `JobManager.set_progress` (recording the raw value passed) and
each external-collaborator call.  `upscaleAttempt` marks a pipeline call site
reaching its `upscale_image(...)` statement — the callee itself never runs
(see the `TypeError` note above), so there is no event for the upscaler body. -/
inductive Ev where
  | progress (q : ℚ)
  | upscaleAttempt
  | enhancer (mode : String) (strength : ℚ)
  | transcoderProbe
  | transcoderExtract
  | transcoderAudio (ok : Bool)
  | transcoderAssemble (fps : ℚ) (interpFps : Option ℚ)
deriving DecidableEq

/-- Environment of one pipeline run: the enhancement environment, whether
`ffm.ffmpeg_available()` holds, what `get_video_fps` returns, whether frame
extraction succeeds and how many numbered frames it yields, whether the audio
track extraction succeeds, and whether the final `assemble_video` succeeds. -/
structure PipeEnv where
  enh : EnhanceEnv
  ffmpegAvailable : Bool
  fpsProbe : Option ℚ
  extractOk : Bool
  frameCount : Nat
  audioExtracted : Bool
  assembleOk : Bool
deriving DecidableEq

/-- Result of one pipeline run: the returned output path or the message of
the exception raised, the events it emitted, and the next unused
cancellation-observation instant. -/
structure PipeOut where
  result : Except String String
  trace : List Ev
  next : Nat

/-- `AppConfig.storage_output_dir()` under the default `STORAGE_ROOT`. -/
def storage_output_dir : String := "/workspace/backend/storage/output"

/-- The per-media-type `output_format` allow-list check with its fallback
default (`png` for images, `mp4` for video). -/
def norm_format (o : Option String) (allowed : List String) (dflt : String) :
    String :=
  let f := asciiLower (pyOrStr o dflt)
  if f ∈ allowed then f else dflt

/-- The output-name suffix: the default unless `options.mode` is truthy, in
which case the mode with spaces replaced by underscores. -/
def job_suffix (mode : Option String) (dflt : String) : String :=
  match mode with
  | none => dflt
  | some m => if m = "" then dflt else spacesToUnderscores m

/-- The output path `_process_image` builds before its first cancel check. -/
def image_output_path (j : Job) (o : ProcessOptions) : String :=
  storage_output_dir ++ "/" ++ base_name j.input_path ++ "_" ++
    job_suffix o.mode "upscaled" ++ "." ++
    norm_format o.format ["png", "jpg", "jpeg", "webp"] "png"

/-- The output path `_process_video` builds in its assembly stage. -/
def video_output_path (j : Job) (o : ProcessOptions) : String :=
  storage_output_dir ++ "/" ++ base_name j.input_path ++ "_" ++
    job_suffix o.mode "enhanced" ++ "." ++
    norm_format o.format ["mp4", "mov", "mkv", "webm"] "mp4"

/-- `_process_image`: cancel check, then the upscale stage when any of
`scale` / `target_width` / `target_height` is truthy (which raises the call
`TypeError` — see above), then `apply_enhancements` with the mode default
`"general"` and the strength default `0.6`, then `set_progress(1.0)`. -/
def process_image (j : Job) (o : ProcessOptions) (env : PipeEnv)
    (obs : Nat → Bool) (t0 : Nat) : PipeOut :=
  let outPath := image_output_path j o
  if obs t0 then ⟨Except.error "cancelled", [], t0 + 1⟩
  else if truthyQ o.scale || truthyNat o.target_width || truthyNat o.target_height then
    ⟨Except.error upscaleCallError, [Ev.upscaleAttempt], t0 + 1⟩
  else
    let mode := pyOrStr o.mode "general"
    let strength := o.strength.getD (3 / 5 : ℚ)
    match apply_enhancements env.enh mode strength with
    | Except.error e => ⟨Except.error e, [Ev.enhancer mode strength], t0 + 1⟩
    | Except.ok _ =>
        ⟨Except.ok outPath, [Ev.enhancer mode strength, Ev.progress 1], t0 + 1⟩

/-- `options.rife_factor if (options.rife_factor and options.rife_factor > 1)
else options.interp_factor`. -/
def chosen_factor (o : ProcessOptions) : Option Int :=
  if truthyInt o.rife_factor && decide (1 < o.rife_factor.getD 0) then o.rife_factor
  else o.interp_factor

/-- The interpolation target fps: `fps * chosen_factor` when `interpolate`
is truthy and the chosen factor is truthy and `> 1`, else `None`. -/
def interp_fps (o : ProcessOptions) (fps : ℚ) : Option ℚ :=
  if truthyBool o.interpolate && truthyInt (chosen_factor o) &&
      decide (1 < (chosen_factor o).getD 0) then
    some (fps * ((chosen_factor o).getD 0 : ℚ))
  else none

/-- The per-frame loop of `_process_video` over `remaining` frame files.
Each iteration first reads `job.cancel_requested` (raising
`RuntimeError("cancelled")` when set) and then reaches the
`upscale_image(...)` call site, which raises the keyword `TypeError`; so no
iteration completes, and the enhancement and progress-report statements of
the loop body are unreachable. -/
def frame_loop (obs : Nat → Bool) (t : Nat) :
    Nat → Except String Unit × List Ev × Nat
  | 0 => (Except.ok (), [], t)
  | _ + 1 =>
      if obs t then (Except.error "cancelled", [], t + 1)
      else (Except.error upscaleCallError, [Ev.upscaleAttempt], t + 1)

/-- `_process_video`: dependency check, cancel check, probe / extract /
audio, `set_progress(0.1)`, the per-frame loop, a cancel check, assembly with
the effective interpolation fps, `set_progress(0.98)`, best-effort cleanup
(swallowed, no effect here), `set_progress(1.0)`. -/
def process_video (j : Job) (o : ProcessOptions) (env : PipeEnv)
    (obs : Nat → Bool) (t0 : Nat) : PipeOut :=
  if !env.ffmpegAvailable then ⟨Except.error ffmpegMissingMsg, [], t0⟩
  else if obs t0 then ⟨Except.error "cancelled", [], t0 + 1⟩
  else if !env.extractOk then
    ⟨Except.error extractFailMsg, [Ev.transcoderProbe, Ev.transcoderExtract], t0 + 1⟩
  else
    let fps := pyOrQ env.fpsProbe 30
    let pre := [Ev.transcoderProbe, Ev.transcoderExtract,
      Ev.transcoderAudio env.audioExtracted, Ev.progress (1 / 10 : ℚ)]
    match frame_loop obs (t0 + 1) env.frameCount with
    | (Except.error e, evs, t1) => ⟨Except.error e, pre ++ evs, t1⟩
    | (Except.ok _, evs, t1) =>
        if obs t1 then ⟨Except.error "cancelled", pre ++ evs, t1 + 1⟩
        else if !env.assembleOk then
          ⟨Except.error assembleFailMsg,
            pre ++ evs ++ [Ev.transcoderAssemble fps (interp_fps o fps)], t1 + 1⟩
        else
          ⟨Except.ok (video_output_path j o),
            pre ++ evs ++ [Ev.transcoderAssemble fps (interp_fps o fps),
              Ev.progress (49 / 50 : ℚ), Ev.progress 1], t1 + 1⟩

/-- `process_media`: dispatch on `job.media_type`, raising
`ValueError(f"Unsupported media type: {job.media_type}")` otherwise. -/
def process_media (j : Job) (env : PipeEnv) (obs : Nat → Bool) (t0 : Nat) :
    PipeOut :=
  if j.media_type = "image" then process_image j j.options env obs t0
  else if j.media_type = "video" then process_video j j.options env obs t0
  else ⟨Except.error ("Unsupported media type: " ++ j.media_type), [], t0⟩

/-! ### The worker body (`JobManager._run_job`) -/

/-- `Except.isOk` as a plain definition of this development. -/
def exOk {ε α : Type} : Except ε α → Bool
  | Except.ok _ => true
  | Except.error _ => false

/-- The progress values a trace writes through `JobManager.set_progress`,
each clamped by `max(0.0, min(1.0, progress))` as `set_progress` does. -/
def progressWrites (tr : List Ev) : List ℚ :=
  tr.filterMap fun e =>
    match e with
    | Ev.progress q => some (clamp01 q)
    | _ => none

/-- Everything one `_run_job` execution produces: the final job record, the
successive snapshots `_update_job` publishes to the store (one per call, in
order — `set_progress` publishes too), whether `process_media` was invoked,
and the pipeline's event trace. -/
structure RunOut where
  job : Job
  published : List Job
  invokedPipeline : Bool
  trace : List Ev
deriving DecidableEq

/-- `JobManager._run_job` on the job record as it stands when the worker
picks it up.  `cancel t` says whether a concurrent `cancel_job` has set the
shared `cancel_requested` flag by observation instant `t`; the flag the code
reads is therefore `job.cancel_requested || cancel t`.  Steps: the entry
guard (skip and cancel when the flag is set and the status is still PENDING),
the RUNNING transition, `process_media`, then on return set `output_path`
and `progress = 1.0` and pick CANCELLED over COMPLETED when the flag is set —
or on an exception record `error` and pick CANCELLED over FAILED; `finally`
publish the final record. -/
def run_job (j : Job) (env : PipeEnv) (cancel : Nat → Bool) : RunOut :=
  let obs : Nat → Bool := fun t => j.cancel_requested || cancel t
  if obs 0 && decide (j.status = JobStatus.PENDING) then
    let jc : Job := { j with status := JobStatus.CANCELLED }
    ⟨jc, [jc], false, []⟩
  else
    let j1 : Job := { j with status := JobStatus.RUNNING }
    let p := process_media j1 env obs 1
    let ws := progressWrites p.trace
    let mids := ws.map fun q => { j1 with progress := q }
    match p.result with
    | Except.ok out =>
        let jF : Job :=
          { j1 with output_path := some out, progress := 1,
                    status :=
                      if obs p.next then JobStatus.CANCELLED
                      else JobStatus.COMPLETED }
        ⟨jF, j1 :: mids ++ [jF], true, p.trace⟩
    | Except.error e =>
        let jF : Job :=
          { j1 with progress := ws.getLastD j.progress, error := some e,
                    status :=
                      if obs p.next then JobStatus.CANCELLED
                      else JobStatus.FAILED }
        ⟨jF, j1 :: mids ++ [jF], true, p.trace⟩

/-! ### Shared concrete inputs for witnesses and counterexamples -/

/-- An image job with empty options, as `create_job` would build it. -/
def demoImageJob : Job :=
  { id := "j1", input_path := "in.png", media_type := "image", options := {} }

/-- A video job with empty options. -/
def demoVideoJob : Job :=
  { id := "j7", input_path := "clip.mp4", media_type := "video", options := {} }

/-- An environment with Pillow and ffmpeg present and every external call
succeeding. -/
def demoPipeEnv : PipeEnv :=
  { enh := { pilAvailable := true, gfpganCli := false, gfpganOk := false },
    ffmpegAvailable := true, fpsProbe := none, extractOk := true,
    frameCount := 3, audioExtracted := false, assembleOk := true }

/-- The demo environment with ffmpeg (the Transcoder) absent. -/
def demoPipeEnvNoFfmpeg : PipeEnv :=
  { demoPipeEnv with ffmpegAvailable := false }

/-! ### Store lemmas -/

theorem store_get_put_same (s : Store) (id : String) (j : Job) :
    store_get (store_put s id j) id = some j := by
  induction s with
  | nil => simp [store_put, store_get]
  | cons kv rest ih =>
      obtain ⟨k, v⟩ := kv
      by_cases h : k = id
      · simp [store_put, store_get, h]
      · simp [store_put, store_get, h, ih]

theorem store_get_put_other (s : Store) (id k : String) (j : Job) (h : k ≠ id) :
    store_get (store_put s id j) k = store_get s k := by
  have hik : ¬id = k := fun hh => h hh.symm
  induction s with
  | nil => simp [store_put, store_get, hik]
  | cons kv rest ih =>
      obtain ⟨k2, v⟩ := kv
      by_cases h2 : k2 = id
      · subst h2
        simp [store_put, store_get, hik]
      · simp [store_put, store_get, h2, ih]

/-! ### C10 -/

/-- C10: `create_job` performs no uniqueness check: for any store, including
one already holding a record under the same id, it builds a fresh PENDING job,
stores it under the id (overwriting whatever was there), returns it, and
leaves every other id untouched; it can never fail. -/
theorem c10_create_job_overwrites (s : Store) (job_id ip mt : String)
    (o : ProcessOptions) :
    store_get (create_job s job_id ip mt o).fst job_id =
      some (create_job s job_id ip mt o).snd ∧
    (create_job s job_id ip mt o).snd.status = JobStatus.PENDING ∧
    (create_job s job_id ip mt o).snd.id = job_id ∧
    ∀ k, k ≠ job_id → store_get (create_job s job_id ip mt o).fst k = store_get s k := by
  refine ⟨store_get_put_same s job_id _, rfl, rfl, ?_⟩
  intro k hk
  exact store_get_put_other s job_id k _ hk

/-! ### C5 -/

/-- C5: `cancel_job` returns `false` exactly when the id is unknown or the
job's status is terminal (COMPLETED, FAILED or CANCELLED); otherwise it
returns `true` after storing the job with `cancel_requested` set and, when the
job was still PENDING, status CANCELLED — in the same call. -/
theorem c5_cancel_job_spec (s : Store) (job_id : String) :
    ((cancel_job s job_id).fst = false ↔
      store_get s job_id = none ∨
        ∃ j, store_get s job_id = some j ∧ terminalStatus j.status = true) ∧
    (∀ j, store_get s job_id = some j → terminalStatus j.status = false →
      (cancel_job s job_id).fst = true ∧
      store_get (cancel_job s job_id).snd job_id =
        some { j with cancel_requested := true,
                      status :=
                        if j.status = JobStatus.PENDING then JobStatus.CANCELLED
                        else j.status }) := by
  constructor
  · cases hget : store_get s job_id with
    | none => simp [cancel_job, hget]
    | some j =>
        by_cases hterm : terminalStatus j.status
        · simp [cancel_job, hget, hterm]
        · simp [cancel_job, hget, hterm]
  · intro j hget hterm
    refine ⟨by simp [cancel_job, hget, hterm], ?_⟩
    simp [cancel_job, hget, hterm, store_get_put_same]

/-! ### C3 -/

/-- C3 counterexample: `create_job` called with the unrecognized media type
`"audio"` does not fail and does store a PENDING Job record, contradicting
the claim that the call fails synchronously and no record is ever stored. -/
theorem c3_counterexample :
    store_get (create_job [] "badjob" "input.bin" "audio" {}).fst "badjob" ≠ none ∧
    (create_job [] "badjob" "input.bin" "audio" {}).snd.status = JobStatus.PENDING := by
  decide

/-- C3 amended: `create_job` performs no mediaType validation at all: for any
mediaType it stores and returns a PENDING Job; an unrecognized mediaType is
rejected only at pipeline execution time, when `process_media` raises
`ValueError("Unsupported media type: ...")`. -/
theorem c3_create_job_defers_validation (s : Store) (job_id ip mt : String)
    (o : ProcessOptions) (env : PipeEnv) (obs : Nat → Bool) (t0 : Nat)
    (h1 : mt ≠ "image") (h2 : mt ≠ "video") :
    store_get (create_job s job_id ip mt o).fst job_id =
      some (create_job s job_id ip mt o).snd ∧
    (create_job s job_id ip mt o).snd.status = JobStatus.PENDING ∧
    (process_media (create_job s job_id ip mt o).snd env obs t0).result =
      Except.error ("Unsupported media type: " ++ mt) := by
  refine ⟨store_get_put_same s job_id _, rfl, ?_⟩
  simp [create_job, process_media, h1, h2]

/-- C3 witness: the amended claim at the concrete media type `"audio"`. -/
theorem c3_witness :
    store_get (create_job [] "w3" "f.xyz" "audio" {}).fst "w3" =
      some (create_job [] "w3" "f.xyz" "audio" {}).snd ∧
    (create_job [] "w3" "f.xyz" "audio" {}).snd.status = JobStatus.PENDING ∧
    (process_media (create_job [] "w3" "f.xyz" "audio" {}).snd demoPipeEnv
        (fun _ => false) 1).result =
      Except.error ("Unsupported media type: " ++ "audio") :=
  c3_create_job_defers_validation [] "w3" "f.xyz" "audio" {} demoPipeEnv
    (fun _ => false) 1 (by decide) (by decide)

/-! ### C4 -/

/-- C4 counterexample: with both target dimensions supplied but `scale = 2`
and the Real-ESRGAN CLI available, `upscale_image` takes the CLI path with the
scale and does not resize to `(300, 200)`, contradicting the claim that the
target dimensions always take precedence. -/
theorem c4_counterexample :
    upscale_image ⟨true, true, true⟩ (some 2) (some 300) (some 200) 10 10 ≠
      UpscaleOutcome.resized 300 200 := by
  decide

/-- C4 amended: when both targetWidth and targetHeight are supplied (nonzero),
Pillow is importable, and the invocation does not take the Real-ESRGAN CLI
path (scale an integer in {2,3,4} with the CLI present and its run
succeeding), the upscaler resizes to exactly (targetWidth, targetHeight),
ignoring scale; on the CLI path the scale wins and the target dimensions are
ignored. -/
theorem c4_target_dims_precedence (env : UpscaleEnv) (scale : Option ℚ)
    (tw th w h : Nat) (hw : tw ≠ 0) (hh : th ≠ 0)
    (hp : env.pilAvailable = true)
    (hcli : cli_eligible scale = false ∨ env.realesrganCli = false ∨
      env.realesrganOk = false) :
    upscale_image env scale (some tw) (some th) w h =
      UpscaleOutcome.resized tw th := by
  have hpil : upscale_with_pillow env scale (some tw) (some th) w h =
      UpscaleOutcome.resized tw th := by
    simp [upscale_with_pillow, truthyNat, hp, hw, hh]
  rcases hcli with hcli | hcli | hcli
  · simp [upscale_image, hcli, hpil]
  · simp [upscale_image, hcli, hpil]
  · simp [upscale_image, hcli, hpil]

/-- C4 witness: the amended claim at a concrete input (CLI absent, scale 2,
target 300 × 200 on a 10 × 10 image). -/
theorem c4_witness :
    upscale_image ⟨false, false, true⟩ (some 2) (some 300) (some 200) 10 10 =
      UpscaleOutcome.resized 300 200 :=
  c4_target_dims_precedence ⟨false, false, true⟩ (some 2) 300 200 10 10
    (by decide) (by decide) rfl (Or.inr (Or.inl rfl))

/-! ### C6 -/

/-- The job record as it stands after `create_job` + an accepted `cancel_job`
on the still-PENDING job: `cancel_job` set both `cancel_requested` and the
CANCELLED status. -/
def c6Job : Job :=
  { id := "job6", input_path := "clip.png", media_type := "image",
    options := {}, status := JobStatus.CANCELLED, cancel_requested := true }

/-- C6: evaluation at the failing input.  A PENDING job cancelled by
`cancel_job` before the worker starts is exactly `c6Job` in the store; when
the worker then picks it up, `_run_job`'s skip-guard (which requires the
status to still be PENDING) does not fire — `cancel_job` already set
CANCELLED — so the worker publishes RUNNING over the terminal CANCELLED and
invokes `process_media`, which only aborts at its first cancellation
checkpoint (`RuntimeError("cancelled")`), leaving the error string set.  The
claim (and the code's own comment "Skip running if cancellation was requested
before start") say the pipeline is never invoked. -/
theorem c6_bug_eval :
    store_get (cancel_job (create_job [] "job6" "clip.png" "image" {}).fst
        "job6").snd "job6" = some c6Job ∧
    (cancel_job (create_job [] "job6" "clip.png" "image" {}).fst "job6").fst = true ∧
    (run_job c6Job demoPipeEnv (fun _ => false)).invokedPipeline = true ∧
    (run_job c6Job demoPipeEnv (fun _ => false)).published.map (fun x => x.status) =
      [JobStatus.RUNNING, JobStatus.CANCELLED] ∧
    (run_job c6Job demoPipeEnv (fun _ => false)).job.status = JobStatus.CANCELLED ∧
    (run_job c6Job demoPipeEnv (fun _ => false)).job.error = some "cancelled" := by
  decide

/-! ### C8 -/

/-- The spec's own scenario input: an image job with `options={scale: 2}`,
mode and strength unset. -/
def c8Job : Job :=
  { id := "j8", input_path := "photo.png", media_type := "image",
    options := { scale := some 2 } }

/-- C8: evaluation at the failing input.  On an image job with `scale: 2` and
mode unset the pipeline raises the keyword `TypeError` at the
`upscale_image(..., realesrgan_model=...)` call, so the Enhancer is never
invoked (the trace holds only the upscale attempt, no `Ev.enhancer` event)
and the job ends FAILED — the claim (and the spec scenario) say the Enhancer
is invoked with mode "general" and strength 0.6 and the job completes. -/
theorem c8_bug_eval :
    (run_job c8Job demoPipeEnv (fun _ => false)).job.status = JobStatus.FAILED ∧
    (run_job c8Job demoPipeEnv (fun _ => false)).job.error = some upscaleCallError ∧
    (run_job c8Job demoPipeEnv (fun _ => false)).trace = [Ev.upscaleAttempt] := by
  decide

/-! ### C1 -/

/-- C1 counterexample: on `demoImageJob` (no upscale options, Pillow present)
with a cancellation arriving after the pipeline's only checkpoint, the
pipeline returns successfully, `_run_job` stores the output path, then sees
the flag and picks CANCELLED — a CANCELLED job with a non-null `outputPath`,
contradicting the claim. -/
theorem c1_counterexample :
    (run_job demoImageJob demoPipeEnv (fun t => decide (2 ≤ t))).job.status =
      JobStatus.CANCELLED ∧
    (run_job demoImageJob demoPipeEnv (fun t => decide (2 ≤ t))).job.output_path ≠
      none := by
  decide

/-- C1 amended: for a PENDING job with no prior output path, the final
`outputPath` is non-null exactly when the worker ran the pipeline and the
pipeline returned successfully; COMPLETED still implies non-null and FAILED
still implies null, but a job cancelled only after a successful pipeline
return ends CANCELLED with the produced `outputPath` retained. -/
theorem c1_output_iff_pipeline_success (j : Job) (env : PipeEnv)
    (cancel : Nat → Bool) (hst : j.status = JobStatus.PENDING)
    (hout : j.output_path = none) :
    ((run_job j env cancel).job.output_path.isSome =
      (!(j.cancel_requested || cancel 0) &&
        exOk (process_media { j with status := JobStatus.RUNNING } env
          (fun t => j.cancel_requested || cancel t) 1).result)) ∧
    ((run_job j env cancel).job.status = JobStatus.COMPLETED →
      (run_job j env cancel).job.output_path.isSome = true) ∧
    ((run_job j env cancel).job.status = JobStatus.FAILED →
      (run_job j env cancel).job.output_path = none) := by
  cases hcr : (j.cancel_requested || cancel 0) with
  | true => simp [run_job, hst, hcr, hout]
  | false =>
      cases hres : (process_media { j with status := JobStatus.RUNNING } env
          (fun t => j.cancel_requested || cancel t) 1).result with
      | ok out =>
          simp [run_job, hst, hcr, hres, exOk]
          split <;> simp
      | error e =>
          simp [run_job, hst, hcr, hres, exOk]
          refine ⟨hout, ?_, fun _ _ => hout⟩
          split <;> simp [hout]

/-- C1 witness: the amended claim at `demoImageJob` with no cancellation —
the job COMPLETEs and `outputPath` is set. -/
theorem c1_witness :
    (run_job demoImageJob demoPipeEnv (fun _ => false)).job.output_path.isSome =
      true :=
  (c1_output_iff_pipeline_success demoImageJob demoPipeEnv (fun _ => false)
    rfl rfl).2.1 (by decide)

/-! ### C2 -/

/-- C2 counterexample: on `demoImageJob` with a cancellation arriving before
the pipeline's first checkpoint, the pipeline raises
`RuntimeError("cancelled")`; `_run_job`'s except-branch records
`error = "cancelled"` before picking CANCELLED over FAILED — a CANCELLED job
carrying a non-null error string, contradicting the claim. -/
theorem c2_counterexample :
    (run_job demoImageJob demoPipeEnv (fun t => decide (1 ≤ t))).job.status =
      JobStatus.CANCELLED ∧
    (run_job demoImageJob demoPipeEnv (fun t => decide (1 ≤ t))).job.error ≠
      none := by
  decide

/-- C2 amended: for a PENDING job with no prior error, the final `error` is
non-null exactly when the worker ran the pipeline and the pipeline raised an
exception — whatever terminal status follows; FAILED still implies a
populated error and COMPLETED still implies none, but a job that ends
CANCELLED through the exception path (including cooperative cancellation,
which is delivered as `RuntimeError("cancelled")`) carries the error string
too. -/
theorem c2_error_iff_pipeline_exception (j : Job) (env : PipeEnv)
    (cancel : Nat → Bool) (hst : j.status = JobStatus.PENDING)
    (herr : j.error = none) :
    ((run_job j env cancel).job.error.isSome =
      (!(j.cancel_requested || cancel 0) &&
        !exOk (process_media { j with status := JobStatus.RUNNING } env
          (fun t => j.cancel_requested || cancel t) 1).result)) ∧
    ((run_job j env cancel).job.status = JobStatus.FAILED →
      (run_job j env cancel).job.error.isSome = true) ∧
    ((run_job j env cancel).job.status = JobStatus.COMPLETED →
      (run_job j env cancel).job.error = none) := by
  cases hcr : (j.cancel_requested || cancel 0) with
  | true => simp [run_job, hst, hcr, herr]
  | false =>
      cases hres : (process_media { j with status := JobStatus.RUNNING } env
          (fun t => j.cancel_requested || cancel t) 1).result with
      | ok out =>
          simp [run_job, hst, hcr, hres, exOk]
          refine ⟨herr, ?_, fun _ _ => herr⟩
          split <;> simp [herr]
      | error e =>
          simp [run_job, hst, hcr, hres, exOk]
          split <;> simp

/-- C2 witness: the amended claim at `demoVideoJob` with ffmpeg absent — the
job FAILs and its error is populated. -/
theorem c2_witness :
    (run_job demoVideoJob demoPipeEnvNoFfmpeg (fun _ => false)).job.error.isSome =
      true :=
  (c2_error_iff_pipeline_exception demoVideoJob demoPipeEnvNoFfmpeg
    (fun _ => false) rfl rfl).2.1 (by decide)

/-! ### C7 -/

/-- C7: a video job run while ffmpeg (the Transcoder) is unavailable, with no
cancellation requested, goes PENDING → RUNNING → FAILED: the worker publishes
exactly the RUNNING snapshot and then the FAILED record, whose error is the
missing-dependency message, and the pipeline emits no event at all — in
particular neither an upscale attempt nor an enhancement ever happens. -/
theorem c7_transcoder_unavailable (j : Job) (env : PipeEnv)
    (cancel : Nat → Bool) (hmt : j.media_type = "video")
    (hst : j.status = JobStatus.PENDING) (hcr : j.cancel_requested = false)
    (hff : env.ffmpegAvailable = false) (hc : ∀ t, cancel t = false) :
    (run_job j env cancel).job.status = JobStatus.FAILED ∧
    (run_job j env cancel).job.error = some ffmpegMissingMsg ∧
    (run_job j env cancel).published.map (fun x => x.status) =
      [JobStatus.RUNNING, JobStatus.FAILED] ∧
    (run_job j env cancel).trace = [] := by
  have hpm : ∀ (jr : Job) (obs : Nat → Bool), jr.media_type = "video" →
      process_media jr env obs 1 = ⟨Except.error ffmpegMissingMsg, [], 1⟩ := by
    intro jr obs hm
    simp [process_media, process_video, hm, hff]
  simp [run_job, hst, hcr, hc, hmt, hpm, progressWrites]

/-- C7 witness: the concrete video job `demoVideoJob` in the
ffmpeg-less environment. -/
theorem c7_witness :
    (run_job demoVideoJob demoPipeEnvNoFfmpeg (fun _ => false)).job.status =
      JobStatus.FAILED ∧
    (run_job demoVideoJob demoPipeEnvNoFfmpeg (fun _ => false)).job.error =
      some ffmpegMissingMsg ∧
    (run_job demoVideoJob demoPipeEnvNoFfmpeg (fun _ => false)).published.map
      (fun x => x.status) = [JobStatus.RUNNING, JobStatus.FAILED] ∧
    (run_job demoVideoJob demoPipeEnvNoFfmpeg (fun _ => false)).trace = [] :=
  c7_transcoder_unavailable demoVideoJob demoPipeEnvNoFfmpeg (fun _ => false)
    rfl rfl rfl rfl (fun _ => rfl)

/-! ### C9 -/

theorem clamp01_of_mem (q : ℚ) (h0 : 0 ≤ q) (h1 : q ≤ 1) : clamp01 q = q := by
  rw [clamp01, min_eq_right h1, max_eq_right h0]

theorem clamp01_one : clamp01 1 = 1 := clamp01_of_mem 1 (by norm_num) (by norm_num)

theorem clamp01_tenth : clamp01 (1 / 10) = 1 / 10 :=
  clamp01_of_mem _ (by norm_num) (by norm_num)

theorem progressWrites_append (a b : List Ev) :
    progressWrites (a ++ b) = progressWrites a ++ progressWrites b :=
  List.filterMap_append a b _

theorem progressWrites_frame_loop (obs : Nat → Bool) (t n : Nat) :
    progressWrites (frame_loop obs t n).snd.fst = [] := by
  cases n with
  | zero => simp [frame_loop, progressWrites]
  | succ m =>
      by_cases h : obs t = true
      · simp [frame_loop, h, progressWrites]
      · simp [frame_loop, h, progressWrites]

theorem progressWrites_preStage (b : Bool) :
    progressWrites [Ev.transcoderProbe, Ev.transcoderExtract, Ev.transcoderAudio b,
      Ev.progress (1 / 10)] = [1 / 10] := by
  simp only [progressWrites, List.filterMap_cons, List.filterMap_nil]
  norm_num [clamp01, min_def, max_def]

theorem progressWrites_tailStage (fps : ℚ) (i : Option ℚ) :
    progressWrites [Ev.transcoderAssemble fps i, Ev.progress (49 / 50),
      Ev.progress 1] = [49 / 50, 1] := by
  simp only [progressWrites, List.filterMap_cons, List.filterMap_nil]
  norm_num [clamp01, min_def, max_def]

/-- Every pipeline run reports one of four progress-write sequences: none at
all, just `1.0` (image succeeding), just `0.1` (video aborted after stage 1 —
which, because the per-frame loop always raises, is every video run with at
least one frame), or `0.1, 0.98, 1.0` (video with zero frames assembling
successfully). -/
theorem progressWrites_cases (j : Job) (env : PipeEnv) (obs : Nat → Bool)
    (t0 : Nat) :
    progressWrites (process_media j env obs t0).trace = [] ∨
    progressWrites (process_media j env obs t0).trace = [1] ∨
    progressWrites (process_media j env obs t0).trace = [1 / 10] ∨
    progressWrites (process_media j env obs t0).trace = [1 / 10, 49 / 50, 1] := by
  unfold process_media
  by_cases him : j.media_type = "image"
  · simp only [him, if_true]
    unfold process_image
    by_cases hob : obs t0 = true
    · left; simp [hob, progressWrites]
    · by_cases hup : (truthyQ j.options.scale || truthyNat j.options.target_width ||
        truthyNat j.options.target_height) = true
      · left; simp [hob, hup, progressWrites]
      · cases henh : apply_enhancements env.enh (pyOrStr j.options.mode "general")
            (j.options.strength.getD (3 / 5)) with
        | error e => left; simp [hob, hup, henh, progressWrites]
        | ok o2 => right; left; simp [hob, hup, henh, progressWrites, clamp01_one]
  · by_cases hiv : j.media_type = "video"
    · rw [if_neg him, if_pos hiv]
      unfold process_video
      by_cases hff : (!env.ffmpegAvailable) = true
      · left; simp [hff, progressWrites]
      · by_cases hob : obs t0 = true
        · left; simp [hff, hob, progressWrites]
        · by_cases hex : (!env.extractOk) = true
          · left; simp [hff, hob, hex, progressWrites]
          · have hevs := progressWrites_frame_loop obs (t0 + 1) env.frameCount
            rcases hfl : frame_loop obs (t0 + 1) env.frameCount with ⟨res, evs, t1⟩
            rw [hfl] at hevs
            simp only at hevs
            rw [if_neg hff, if_neg hob, if_neg hex]
            cases res with
            | error e =>
                right; right; left
                simp only [hfl]
                rw [progressWrites_append, hevs, progressWrites_preStage]
                simp
            | ok u =>
                by_cases hob2 : obs t1 = true
                · right; right; left
                  simp only [hfl, hob2, if_true]
                  rw [progressWrites_append, hevs, progressWrites_preStage]
                  simp
                · by_cases hasm : (!env.assembleOk) = true
                  · right; right; left
                    simp only [hfl, hasm, if_true, if_neg hob2]
                    rw [progressWrites_append, progressWrites_append, hevs,
                      progressWrites_preStage]
                    simp [progressWrites]
                  · right; right; right
                    simp only [hfl, if_neg hob2, if_neg hasm]
                    rw [progressWrites_append, progressWrites_append, hevs,
                      progressWrites_preStage, progressWrites_tailStage]
                    simp
    · simp only [him, hiv, if_false]
      left; simp [progressWrites]

/-- C9: for any job starting at progress 0 and any execution (any media type,
environment and cancellation schedule), the sequence of progress values the
worker publishes — the initial value, every clamped `set_progress` write of
the pipeline, and the final value — is monotonically non-decreasing, and
every published value lies in [0, 1]. -/
theorem c9_progress_monotone_bounded (j : Job) (env : PipeEnv)
    (cancel : Nat → Bool) (hp : j.progress = 0) :
    List.Chain' (fun a b => a ≤ b)
      ((run_job j env cancel).published.map (fun x => x.progress)) ∧
    ∀ q ∈ (run_job j env cancel).published.map (fun x => x.progress),
      0 ≤ q ∧ q ≤ 1 := by
  cases hg : ((j.cancel_requested || cancel 0) &&
      decide (j.status = JobStatus.PENDING)) with
  | true => simp [run_job, hg, hp]
  | false =>
      rcases progressWrites_cases { j with status := JobStatus.RUNNING } env
          (fun t => j.cancel_requested || cancel t) 1 with hws | hws | hws | hws <;>
        cases hres : (process_media { j with status := JobStatus.RUNNING } env
            (fun t => j.cancel_requested || cancel t) 1).result <;>
          · rw [hp] at hres hws
            simp only [run_job]
            rw [hp]
            simp [hg, hres, hws]
            try norm_num [List.chain'_cons]

/-- C9 witness: the concrete video job `demoVideoJob` in the demo
environment with no cancellation. -/
theorem c9_witness :
    List.Chain' (fun a b => a ≤ b)
      ((run_job demoVideoJob demoPipeEnv (fun _ => false)).published.map
        (fun x => x.progress)) ∧
    ∀ q ∈ (run_job demoVideoJob demoPipeEnv (fun _ => false)).published.map
        (fun x => x.progress), 0 ≤ q ∧ q ≤ 1 :=
  c9_progress_monotone_bounded demoVideoJob demoPipeEnv (fun _ => false) rfl

end Lumina
